import Mathlib

/-!
Verification of a collection of C++ exercise programs: a thread-safe queue,
a diamond-inheritance hierarchy with a virtual base, an instrumented value
type tracing copy and move operations, RAII resource wrappers with
exception safety, an array-specialised ownership wrapper, and a fixed-size
array container with bounds-checked access. Each namespace embeds one
translation unit; state that C++ keeps in static members or on the heap is
passed explicitly, and thrown exceptions are Except values.
-/

/-- Exception values thrown by the embedded programs. -/
inductive CppError where
  | invalidArgument (msg : String)
  | outOfRange (msg : String)
  | runtimeError (msg : String)
  deriving DecidableEq, Repr

namespace TSQ

/-- ThreadSafeQueue::push (part_003 lines 30-45): appends the item at the
back of the underlying std::queue, then notifies one waiter. The queue
contents are the list, front at the head. -/
def push {T : Type} (q : List T) (item : T) : List T :=
  q ++ [item]

/-- ThreadSafeQueue::pop, blocking (part_003 lines 48-58), evaluated in a
state where the wait predicate (queue non-empty) holds: moves the front
out and pops it. -/
def pop {T : Type} (q : List T) (h : q ≠ []) : T × List T :=
  (q.head h, q.tail)

/-- ThreadSafeQueue::try_pop, optional overload (part_003 lines 74-84):
on an empty queue return nullopt and leave the queue unchanged, otherwise
return the front element and remove it. -/
def try_pop {T : Type} (q : List T) : Option T × List T :=
  match q with
  | [] => (none, [])
  | x :: rest => (some x, rest)

/-- ThreadSafeQueue::try_pop, reference overload (part_003 lines 61-71):
returns false leaving the out-parameter and the queue unchanged when
empty, otherwise assigns the front to the out-parameter, removes it and
returns true. -/
def try_pop_ref {T : Type} (q : List T) (item : T) : Bool × T × List T :=
  match q with
  | [] => (false, item, [])
  | x :: rest => (true, x, rest)

/-- ThreadSafeQueue::pop_timeout (part_003 lines 87-98), evaluated at the
moment wait_for resolves: if the wait expired with the queue still empty,
return nullopt leaving the queue unchanged; otherwise the predicate held,
so pop the front. -/
def pop_timeout {T : Type} (q : List T) : Option T × List T :=
  match q with
  | [] => (none, [])
  | x :: rest => (some x, rest)

/-- Events observable on the queue: a push completing, or a blocking pop
completing and returning the removed element. -/
inductive QEvent (T : Type) where
  | push (x : T)
  | popComplete (x : T)

/-- Transition relation of the queue (part_003 lines 30-58): push appends
at the back; a blocking pop can only complete when its wait predicate
holds, i.e. the queue is non-empty, and then removes the front element. -/
inductive QStep {T : Type} : List T → QEvent T → List T → Prop where
  | push (q : List T) (x : T) : QStep q (QEvent.push x) (push q x)
  | popComplete (x : T) (rest : List T) :
      QStep (x :: rest) (QEvent.popComplete x) rest

/-- Push a whole sequence of items onto the queue in order. -/
def pushAll {T : Type} (q : List T) (xs : List T) : List T :=
  xs.foldl push q

/-- Perform n successive try_pop operations, collecting the successfully
popped items in order, together with the final queue. -/
def popN {T : Type} : Nat → List T → List T × List T
  | 0, q => ([], q)
  | n + 1, q =>
    match try_pop q with
    | (none, q2) => ([], q2)
    | (some x, q2) =>
      let r := popN n q2
      (x :: r.1, r.2)

theorem pushAll_eq {T : Type} (xs q : List T) : pushAll q xs = q ++ xs := by
  induction xs generalizing q with
  | nil => simp [pushAll]
  | cons x xs ih =>
    have h := ih (push q x)
    simp only [pushAll, List.foldl_cons]
    simp only [pushAll] at h
    rw [h]
    simp [push]

theorem popN_length {T : Type} (xs : List T) : popN xs.length xs = (xs, []) := by
  induction xs with
  | nil => simp [popN]
  | cons x rest ih =>
    simp [popN, try_pop, ih]

/-- C1: a blocking pop cannot complete on an empty queue (its wait
predicate fails), a push from the empty queue makes it non-empty and
thereby enables the pop to complete, and whenever a pop completes the
queue size immediately afterwards is exactly one less than the size at
the moment the popped element was removed. -/
theorem pop_blocks_on_empty_and_decrements_size (T : Type) :
    (∀ (x : T) (q' : List T), ¬ QStep [] (QEvent.popComplete x) q') ∧
    (∀ x : T, QStep [] (QEvent.push x) [x] ∧
      QStep [x] (QEvent.popComplete x) []) ∧
    (∀ (q : List T) (x : T) (q' : List T),
      QStep q (QEvent.popComplete x) q' → q'.length + 1 = q.length) := by
  refine ⟨?_, ?_, ?_⟩
  · intro x q' h
    cases h
  · intro x
    refine ⟨?_, QStep.popComplete x []⟩
    have h := QStep.push ([] : List T) x
    simpa [push] using h
  · intro q x q' h
    cases h
    simp

/-- Witness for C1 at a concrete queue. -/
theorem pop_blocks_on_empty_and_decrements_size_witness :
    ([] : List Nat).length + 1 = [5].length ∧
    ¬ QStep ([] : List Nat) (QEvent.popComplete 5) [] :=
  ⟨(pop_blocks_on_empty_and_decrements_size Nat).2.2 [5] 5 []
      (QStep.popComplete 5 []),
    (pop_blocks_on_empty_and_decrements_size Nat).1 5 []⟩

/-- C3: on an empty queue, try_pop (both overloads) returns an empty
result without removing anything and pop_timeout whose wait expires with
the queue still empty returns nullopt, all leaving the queue unchanged;
on a non-empty queue each of them returns the front element and removes
it. -/
theorem try_pop_and_timeout_spec (T : Type) (item : T) :
    (try_pop ([] : List T) = (none, []) ∧
     try_pop_ref ([] : List T) item = (false, item, []) ∧
     pop_timeout ([] : List T) = (none, [])) ∧
    (∀ (x : T) (rest : List T),
      try_pop (x :: rest) = (some x, rest) ∧
      try_pop_ref (x :: rest) item = (true, x, rest) ∧
      pop_timeout (x :: rest) = (some x, rest)) := by
  exact ⟨⟨rfl, rfl, rfl⟩, fun x rest => ⟨rfl, rfl, rfl⟩⟩

/-- C4: the queue is first-in-first-out: pushing any sequence onto the
empty queue and popping repeatedly returns the items in push order, and
on a non-empty queue the blocking pop, try_pop and pop_timeout all
remove and return the front element, so any interleaving of successful
pops preserves push order. -/
theorem fifo_order (T : Type) :
    (∀ xs : List T, (popN xs.length (pushAll [] xs)).1 = xs) ∧
    (∀ (x : T) (rest : List T) (h : x :: rest ≠ []),
      pop (x :: rest) h = (x, rest) ∧
      try_pop (x :: rest) = (some x, rest) ∧
      pop_timeout (x :: rest) = (some x, rest)) := by
  constructor
  · intro xs
    rw [pushAll_eq]
    simp [popN_length]
  · intro x rest h
    exact ⟨rfl, rfl, rfl⟩

/-- Witness for C4 at a concrete push sequence. -/
theorem fifo_order_witness :
    pop ([1] : List Nat) (by decide) = (1, []) ∧
    (popN ([1, 2, 3] : List Nat).length (pushAll [] [1, 2, 3])).1 = [1, 2, 3] :=
  ⟨((fifo_order Nat).2 1 [] (by decide)).1, (fifo_order Nat).1 [1, 2, 3]⟩

end TSQ

namespace Diamond

/-- Base::Base (exercise_7_solution.cpp lines 10-14): increments the
static instance counter. -/
def baseCtor (count : Nat) : Nat := count + 1

/-- Constructor of an intermediate class that inherits Base virtually
(exercise_7_solution.cpp lines 33-71, Derived1 and Derived2), run while
constructing a more-derived object: its Base initializer is ignored, the
shared virtual Base having already been constructed by the most derived
class. -/
def derivedCtorVirtualBase (count : Nat) : Nat := count

/-- Constructor of an intermediate class that inherits Base non-virtually:
it constructs its own Base subobject. -/
def derivedCtorNonVirtualBase (count : Nat) : Nat := baseCtor count

/-- Run the constructors of n intermediate classes in declaration order. -/
def intermediatesCtor (virtualBase : Bool) : Nat → Nat → Nat
  | 0, count => count
  | n + 1, count =>
    intermediatesCtor virtualBase n
      (if virtualBase then derivedCtorVirtualBase count
       else derivedCtorNonVirtualBase count)

/-- Construct one most-derived object over n intermediate classes that all
inherit from Base. With virtual inheritance the most derived class
constructs the single shared Base first (exercise_7_solution.cpp lines
78-85, Final's initializer list runs Base(name) before Derived1 and
Derived2), then the intermediate constructors run; without virtual
inheritance each intermediate constructs its own Base subobject. -/
def constructMostDerived (virtualBase : Bool) (n : Nat) (count : Nat) : Nat :=
  if virtualBase then intermediatesCtor true n (baseCtor count)
  else intermediatesCtor false n count

/-- Constructing Final (exercise_7_solution.cpp lines 73-96): two
intermediates, Derived1 and Derived2, both inheriting Base virtually. -/
def constructFinal (count : Nat) : Nat := constructMostDerived true 2 count

/-- Base::getInstanceCount (exercise_7_solution.cpp lines 26-28): returns
the static counter. -/
def getInstanceCount (count : Nat) : Nat := count

theorem intermediatesCtor_virtual (n c : Nat) :
    intermediatesCtor true n c = c := by
  induction n generalizing c with
  | zero => rfl
  | succ n ih =>
    simpa [intermediatesCtor, derivedCtorVirtualBase] using ih c

/-- C2: constructing one most-derived Final object constructs exactly one
Base subobject: starting from instance count 0, Base::getInstanceCount()
returns 1 afterwards, and the same holds for any number of intermediate
classes inheriting virtually from Base. -/
theorem one_base_instance :
    getInstanceCount (constructFinal 0) = 1 ∧
    (∀ n : Nat, getInstanceCount (constructMostDerived true n 0) = 1) := by
  constructor
  · simp [constructFinal, constructMostDerived, getInstanceCount,
      intermediatesCtor_virtual, baseCtor]
  · intro n
    simp [constructMostDerived, getInstanceCount,
      intermediatesCtor_virtual, baseCtor]

end Diamond

namespace Tracked

/-- The static counters of TrackedResource (exercise_1_problem.md lines
100-174): operation counts and the id generator next_id_. -/
structure Counters where
  copy_count_ : Nat
  move_count_ : Nat
  copy_assign_count_ : Nat
  move_assign_count_ : Nat
  next_id_ : Int
  deriving DecidableEq, Repr

/-- The instrumented value type: the identifier is its only per-instance
state. -/
structure TrackedResource where
  id_ : Int
  deriving DecidableEq, Repr

/-- Copy constructor (exercise_1_problem.md lines 115-118): the new object
draws a fresh id, copy_count_ is incremented, the source is untouched.
Returns (new object, source afterwards, counters afterwards). -/
def copyCtor (other : TrackedResource) (s : Counters) :
    TrackedResource × TrackedResource × Counters :=
  (⟨s.next_id_⟩, other,
    { s with copy_count_ := s.copy_count_ + 1, next_id_ := s.next_id_ + 1 })

/-- Move constructor (exercise_1_problem.md lines 121-125): the new object
takes the source's id, move_count_ is incremented and the source's id is
set to -1 (marked moved-from). -/
def moveCtor (other : TrackedResource) (s : Counters) :
    TrackedResource × TrackedResource × Counters :=
  (⟨other.id_⟩, ⟨-1⟩, { s with move_count_ := s.move_count_ + 1 })

/-- Move assignment (exercise_1_problem.md lines 138-146): guarded by the
self-test this != &other, passed here as selfIsOther; in the non-self
case the target takes the source's id, move_assign_count_ is incremented
and the source's id is set to -1. Returns (target afterwards, source
afterwards, counters afterwards). -/
def moveAssign (self other : TrackedResource) (selfIsOther : Bool)
    (s : Counters) : TrackedResource × TrackedResource × Counters :=
  if selfIsOther then (self, other, s)
  else (⟨other.id_⟩, ⟨-1⟩,
    { s with move_assign_count_ := s.move_assign_count_ + 1 })

/-- Destructor (exercise_1_problem.md lines 148-152): prints a trace line
only when id_ >= 0; the result is the printed id, none when nothing is
printed. -/
def destructorTrace (r : TrackedResource) : Option Int :=
  if 0 ≤ r.id_ then some r.id_ else none

/-- Which constructor overload resolution selects. -/
inductive CtorChoice where
  | copy
  | move
  deriving DecidableEq, Repr

/-- Overload resolution for constructing a TrackedResource from an
argument of the given constness and value category: the move constructor
takes TrackedResource&& and a const argument cannot bind to it, so only
a non-const rvalue selects the move constructor; everything else falls
back to the copy constructor taking const TrackedResource&
(exercise_8_answers.md, Test 16 answer). -/
def selectCtor (argIsConst : Bool) (argIsRvalue : Bool) : CtorChoice :=
  if argIsRvalue && !argIsConst then CtorChoice.move else CtorChoice.copy

/-- Construct a new TrackedResource from src with the selected overload. -/
def constructFrom (choice : CtorChoice) (src : TrackedResource)
    (s : Counters) : TrackedResource × TrackedResource × Counters :=
  match choice with
  | CtorChoice.copy => copyCtor src s
  | CtorChoice.move => moveCtor src s

/-- C5: a TrackedResource with a valid id used as the source of a move
construction or a non-self move assignment is left inert: its id is set
to -1, destroying it prints no trace line, its prior id is no longer
observable through it (the new object carries it instead), and it can be
reassigned afterwards, a later move assignment into it giving it the
right-hand side's id. -/
theorem moved_from_inert (src : TrackedResource) (s : Counters)
    (h : 0 ≤ src.id_) :
    ((moveCtor src s).2.1.id_ = -1 ∧
     destructorTrace (moveCtor src s).2.1 = none ∧
     (moveCtor src s).2.1.id_ ≠ src.id_ ∧
     (moveCtor src s).1.id_ = src.id_) ∧
    (∀ self : TrackedResource,
      (moveAssign self src false s).2.1.id_ = -1 ∧
      destructorTrace (moveAssign self src false s).2.1 = none ∧
      (moveAssign self src false s).2.1.id_ ≠ src.id_ ∧
      (moveAssign self src false s).1.id_ = src.id_) ∧
    (∀ (fresh : TrackedResource) (s2 : Counters),
      (moveAssign (moveCtor src s).2.1 fresh false s2).1.id_ = fresh.id_) := by
  refine ⟨⟨rfl, ?_, ?_, rfl⟩, ?_, ?_⟩
  · simp [destructorTrace, moveCtor]
  · intro hEq
    simp only [moveCtor] at hEq
    omega
  · intro self
    refine ⟨rfl, ?_, ?_, rfl⟩
    · simp [destructorTrace, moveAssign]
    · intro hEq
      simp [moveAssign] at hEq
      omega
  · intro fresh s2
    rfl

/-- Witness for C5 at a concrete source object. -/
theorem moved_from_inert_witness :
    (moveCtor ⟨1⟩ ⟨0, 0, 0, 0, 1⟩).2.1.id_ = -1 ∧
    destructorTrace (moveCtor ⟨1⟩ ⟨0, 0, 0, 0, 1⟩).2.1 = none :=
  ⟨(moved_from_inert ⟨1⟩ ⟨0, 0, 0, 0, 1⟩ (by decide)).1.1,
    (moved_from_inert ⟨1⟩ ⟨0, 0, 0, 0, 1⟩ (by decide)).1.2.1⟩

/-- C6: constructing from a const object cast to an rvalue (std::move on
a const object, exercise_1_problem.md Test 16) selects the copy
constructor rather than the move constructor: the copy counter is
incremented, the move counter is unchanged and the source object is
unchanged. -/
theorem const_rvalue_selects_copy (src : TrackedResource) (s : Counters) :
    selectCtor true true = CtorChoice.copy ∧
    (constructFrom (selectCtor true true) src s).2.1 = src ∧
    (constructFrom (selectCtor true true) src s).2.2.copy_count_ =
      s.copy_count_ + 1 ∧
    (constructFrom (selectCtor true true) src s).2.2.move_count_ =
      s.move_count_ :=
  ⟨rfl, rfl, rfl, rfl⟩

end Tracked

namespace Ex4

/-- A simulated file handle (exercise_4_solution.cpp lines 13-63): only
the descriptor matters for the embedded claims. -/
structure FileHandle where
  fd_ : Int
  deriving DecidableEq, Repr

/-- FileHandle::FileHandle (exercise_4_solution.cpp lines 19-25): a null
or empty filename throws std::invalid_argument before a descriptor is
drawn; otherwise the handle takes the next descriptor and the static
next_fd_ counter advances. Returns (outcome, next_fd_ afterwards). -/
def FileHandle.ctor (filename : Option String) (next_fd_ : Int) :
    Except CppError FileHandle × Int :=
  match filename with
  | none => (Except.error (CppError.invalidArgument "Invalid filename"), next_fd_)
  | some s =>
    if s.length = 0 then
      (Except.error (CppError.invalidArgument "Invalid filename"), next_fd_)
    else
      (Except.ok ⟨next_fd_⟩, next_fd_ + 1)

/-- A simulated memory buffer (exercise_4_solution.cpp lines 68-143):
size and the owned allocation, none modelling nullptr. -/
structure Buffer where
  size_ : Nat
  data_ : Option (List Char)
  deriving DecidableEq, Repr

/-- Buffer::Buffer (exercise_4_solution.cpp lines 75-83): size 0 throws
std::invalid_argument before any allocation; otherwise a zero-filled
buffer is allocated and the static instance counter advances. Returns
(outcome, instance_count_ afterwards). -/
def Buffer.ctor (size : Nat) (instance_count_ : Int) :
    Except CppError Buffer × Int :=
  if size = 0 then
    (Except.error (CppError.invalidArgument "Buffer size must be > 0"),
      instance_count_)
  else
    (Except.ok ⟨size, some (List.replicate size (Char.ofNat 0))⟩,
      instance_count_ + 1)

/-- The RAII wrapper (exercise_4_solution.cpp lines 151-259): resource_
is the owned resource, none modelling nullptr. -/
structure ResourceWrapper (R : Type) where
  resource_ : Option R
  deriving DecidableEq, Repr

/-- ResourceWrapper's constructor (exercise_4_solution.cpp lines 158-167):
resource_ starts null; the resource constructor runs inside a try block;
on exception resource_ is still null, nothing was acquired, and the
exception is rethrown; on success the wrapper owns the resource. Returns
(outcome, wrapper state at constructor exit, static counter afterwards). -/
def ResourceWrapper.ctorState {R : Type} (acq : Except CppError R × Int) :
    Except CppError Unit × ResourceWrapper R × Int :=
  match acq with
  | (Except.error e, c) => (Except.error e, ⟨none⟩, c)
  | (Except.ok r, c) => (Except.ok (), ⟨some r⟩, c)

/-- ResourceWrapper's move assignment (exercise_4_solution.cpp lines
177-186): guarded by this != &other, passed here as selfIsOther; in the
non-self case resource_.reset() destroys the current resource and
ownership is transferred, leaving the source empty. Returns (target
afterwards, source afterwards, resource destroyed by the reset). -/
def ResourceWrapper.moveAssign {R : Type} (self other : ResourceWrapper R)
    (selfIsOther : Bool) :
    ResourceWrapper R × ResourceWrapper R × Option R :=
  if selfIsOther then (self, other, none)
  else (⟨other.resource_⟩, ⟨none⟩, self.resource_)

/-- C7: constructing a FileHandle from a null or empty filename and
constructing a Buffer of size 0 each throw std::invalid_argument; when
such a construction throws inside ResourceWrapper's constructor, the
wrapper's internal pointer is still null, the static acquisition counter
is unchanged (no resource was acquired), and the same exception
propagates to the caller. -/
theorem ctor_throw_no_leak (fd c : Int) :
    (FileHandle.ctor none fd).1 =
      Except.error (CppError.invalidArgument "Invalid filename") ∧
    (FileHandle.ctor (some "") fd).1 =
      Except.error (CppError.invalidArgument "Invalid filename") ∧
    (Buffer.ctor 0 c).1 =
      Except.error (CppError.invalidArgument "Buffer size must be > 0") ∧
    ResourceWrapper.ctorState (FileHandle.ctor none fd) =
      (Except.error (CppError.invalidArgument "Invalid filename"),
        ⟨none⟩, fd) ∧
    ResourceWrapper.ctorState (FileHandle.ctor (some "") fd) =
      (Except.error (CppError.invalidArgument "Invalid filename"),
        ⟨none⟩, fd) ∧
    ResourceWrapper.ctorState (Buffer.ctor 0 c) =
      (Except.error (CppError.invalidArgument "Buffer size must be > 0"),
        ⟨none⟩, c) :=
  ⟨rfl, rfl, rfl, rfl, rfl, rfl⟩

end Ex4

namespace UPtr

/-- The form of delete used to release a managed pointer. -/
inductive DeleteForm where
  | single
  | array
  deriving DecidableEq, Repr

/-- The array partial specialization UniquePtr<T[]>
(exercise_8_answers.md lines 326-390): ptr_ is the owned array, none
modelling nullptr. -/
structure UniquePtrArr (T : Type) where
  ptr_ : Option (List T)
  deriving DecidableEq, Repr

/-- release() of the specialization: returns the old pointer and leaves
the wrapper null. -/
def UniquePtrArr.release {T : Type} (p : UniquePtrArr T) :
    Option (List T) × UniquePtrArr T :=
  (p.ptr_, ⟨none⟩)

/-- Move constructor of the specialization: ptr_(other.release()), so the
destination takes the pointer and the source is left null. Returns
(destination, source afterwards). -/
def UniquePtrArr.moveCtor {T : Type} (other : UniquePtrArr T) :
    UniquePtrArr T × UniquePtrArr T :=
  ((⟨(other.release).1⟩ : UniquePtrArr T), (other.release).2)

/-- Destructor of the specialization: if ptr_ is non-null it is released
with delete[]; the result lists the delete events the destructor
performs, tagged with the delete form used. -/
def UniquePtrArr.dtorEvents {T : Type} (p : UniquePtrArr T) :
    List (DeleteForm × List T) :=
  match p.ptr_ with
  | none => []
  | some a => [(DeleteForm.array, a)]

/-- C8: the array specialization releases its managed array with the
array-delete form exactly once: destroying an owning wrapper performs one
delete[] of the array; after move-construction the moved-from instance
releases nothing and the two destructors together still perform exactly
one delete[] of the array. -/
theorem array_delete_exactly_once (T : Type) (a : List T) :
    UniquePtrArr.dtorEvents (⟨some a⟩ : UniquePtrArr T) =
      [(DeleteForm.array, a)] ∧
    (UniquePtrArr.moveCtor (⟨some a⟩ : UniquePtrArr T)).2.dtorEvents = [] ∧
    ((UniquePtrArr.moveCtor (⟨some a⟩ : UniquePtrArr T)).2.dtorEvents ++
      (UniquePtrArr.moveCtor (⟨some a⟩ : UniquePtrArr T)).1.dtorEvents) =
      [(DeleteForm.array, a)] :=
  ⟨rfl, rfl, rfl⟩

end UPtr

namespace FA

/-- FixedArray<T, N> (exercise_5_solution.cpp lines 12-16): N elements of
type T, data_ giving the element at each in-range index. -/
structure FixedArray (T : Type) (N : Nat) where
  data_ : Fin N → T

/-- operator[] (exercise_5_solution.cpp lines 229-230): unchecked access,
defined for indices within bounds. -/
def FixedArray.opIndex {T : Type} {N : Nat} (arr : FixedArray T N)
    (i : Fin N) : T :=
  arr.data_ i

/-- at (exercise_5_solution.cpp lines 232-244): bounds-checked access
throwing std::out_of_range when index >= N; returns the outcome together
with the array after the call (the access is read-only). -/
def FixedArray.at_ {T : Type} {N : Nat} (arr : FixedArray T N)
    (index : Nat) : Except CppError T × FixedArray T N :=
  if h : N ≤ index then
    (Except.error (CppError.outOfRange "FixedArray::at: index out of range"),
      arr)
  else
    (Except.ok (arr.data_ ⟨index, Nat.lt_of_not_le h⟩), arr)

/-- Whether an Except value is a thrown exception. -/
def isThrown {α : Type} : Except CppError α → Bool
  | Except.error _ => true
  | Except.ok _ => false

/-- C9: at(i) throws std::out_of_range exactly when i >= N; for i < N it
returns the same element as operator[](i); and in either case the call
leaves the array unchanged. -/
theorem at_spec (T : Type) (N : Nat) (arr : FixedArray T N) (i : Nat) :
    (isThrown (arr.at_ i).1 = true ↔ N ≤ i) ∧
    (∀ h : i < N, (arr.at_ i).1 = Except.ok (arr.opIndex ⟨i, h⟩)) ∧
    (arr.at_ i).2 = arr := by
  unfold FixedArray.at_
  by_cases h : N ≤ i
  · rw [dif_pos h]
    refine ⟨by simp [isThrown, h], ?_, rfl⟩
    intro h2
    omega
  · rw [dif_neg h]
    refine ⟨by simp [isThrown, h], ?_, rfl⟩
    intro h2
    rfl

/-- Witness for C9 at a concrete array and index. -/
theorem at_spec_witness :
    ((⟨fun _ => 7⟩ : FixedArray Nat 2).at_ 1).1 =
      Except.ok ((⟨fun _ => 7⟩ : FixedArray Nat 2).opIndex ⟨1, by decide⟩) :=
  (at_spec Nat 2 ⟨fun _ => 7⟩ 1).2.1 (by decide)

end FA

namespace RM

/-- ResourceManager (part_002 lines 96-150): a size and the owned buffer,
none modelling nullptr. -/
structure ResourceManager where
  size_ : Nat
  buffer_ : Option (List Int)
  deriving DecidableEq, Repr

/-- valid() (part_002 line 149): buffer_ != nullptr. -/
def ResourceManager.valid (rm : ResourceManager) : Bool :=
  rm.buffer_.isSome

/-- Move assignment (part_002 lines 117-133): guarded by this != &other,
passed here as selfIsOther; in the non-self case the current buffer is
deleted with delete[], ownership is transferred and the source is reset.
Returns (target afterwards, source afterwards, buffer released by
delete[]). -/
def ResourceManager.moveAssign (self other : ResourceManager)
    (selfIsOther : Bool) :
    ResourceManager × ResourceManager × Option (List Int) :=
  if selfIsOther then (self, other, none)
  else (⟨other.size_, other.buffer_⟩, ⟨0, none⟩, self.buffer_)

/-- C10: self move-assignment is a safe no-op: for a valid
ResourceManager rm, rm = std::move(rm) leaves rm's size and buffer
unchanged, releases nothing, and rm.valid() stays true; ResourceWrapper's
move assignment likewise leaves the object unchanged and destroys nothing
under self-assignment. -/
theorem self_move_assign_noop (rm : ResourceManager)
    (h : rm.valid = true) :
    ResourceManager.moveAssign rm rm true = (rm, rm, none) ∧
    (ResourceManager.moveAssign rm rm true).1.valid = true ∧
    (∀ (R : Type) (w : Ex4.ResourceWrapper R),
      Ex4.ResourceWrapper.moveAssign w w true = (w, w, none)) := by
  refine ⟨rfl, ?_, ?_⟩
  · simpa [ResourceManager.moveAssign] using h
  · intro R w
    rfl

/-- Witness for C10 at a concrete valid manager. -/
theorem self_move_assign_noop_witness :
    ResourceManager.moveAssign ⟨10, some (List.replicate 10 0)⟩
      ⟨10, some (List.replicate 10 0)⟩ true =
      (⟨10, some (List.replicate 10 0)⟩,
        ⟨10, some (List.replicate 10 0)⟩, none) :=
  (self_move_assign_noop ⟨10, some (List.replicate 10 0)⟩ (by rfl)).1

end RM
